import Mathlib

/-!
Verification of the Interview Orchestrator Core (Go repository
`casePreparedCall`) against its natural-language specification.

Shallow embedding conventions:
* Go `int16` samples are decoded to `Int`; byte buffers are `List Nat`
  (each entry a byte value, reduced mod 256 where it matters).
* The Go VAD stores the float energy threshold `1000.0`; to keep the
  RMS comparison exact we carry the squared threshold `1000000 : Nat`
  and compare the sum of squared samples against `threshold² · n`
  (for `n > 0` samples, `RMS > t ↔ Σ s² > t²·n`).
* Channels are modelled as lists of pending items with an explicit
  capacity; a non-blocking send on a full channel returns the buffer
  unchanged, a blocking send always appends.
* Wall-clock times are `Nat` milliseconds supplied as event inputs.
* Effects on external handles (closing a socket, firing a cancellation
  context, closing/replacing the ASR client) are tracked either as
  explicit effect records returned by an operation or as generation
  counters on the session record.
-/

namespace CallService

/-! ## Voice Activity Detector (`internal/audio/vad`, part_008) -/

/-- Mirror of the Go `VAD` struct.  `energyThresholdSq` carries the square
of the Go float field `energyThreshold = 1000.0` so that the energy
comparison can be done in exact integer arithmetic. -/
structure VAD where
  energyThresholdSq : Nat
  silenceCounter : Nat
  voiceCounter : Nat
  minVoiceDuration : Nat
  minSilenceDuration : Nat
  buffer : List Bool
  bufferSize : Nat
  bufferIndex : Nat
deriving DecidableEq

/-- Mirror of Go `NewVAD`: threshold 1000.0 (squared: 1000000), 3 voice
frames, 5 silence frames, 5-slot smoothing buffer. -/
def NewVAD : VAD :=
  { energyThresholdSq := 1000000
    silenceCounter := 0
    voiceCounter := 0
    minVoiceDuration := 3
    minSilenceDuration := 5
    buffer := List.replicate 5 false
    bufferSize := 5
    bufferIndex := 0 }

/-- Two little-endian bytes to a signed 16-bit sample, as
`int16(binary.LittleEndian.Uint16(...))` does. -/
def toInt16 (lo hi : Nat) : Int :=
  let u := lo % 256 + 256 * (hi % 256)
  if u < 32768 then (u : Int) else (u : Int) - 65536

/-- Decode a byte buffer into 16-bit samples; a trailing odd byte is
ignored (Go allocates `len/2` samples). -/
def decodeSamples : List Nat → List Int
  | lo :: hi :: rest => toInt16 lo hi :: decodeSamples rest
  | _ => []

/-- Sum of squared samples (the quantity under the square root in the Go
`calculateEnergy` RMS). -/
def sumSquares (samples : List Int) : Int :=
  (samples.map (fun s => s * s)).sum

/-- Mirror of Go `VAD.DetectActivity`.  Returns the (possibly updated)
state and either the boolean decision or the error for a frame shorter
than 2 bytes ("insufficient audio data"); on error the state is the
input state, matching the Go early return before any mutation.
The Go comparison `energy > v.energyThreshold` on the RMS is rendered
exactly as `thresholdSq * n < Σ s²`. -/
def DetectActivity (v : VAD) (audioData : List Nat) : VAD × Except String Bool :=
  if audioData.length < 2 then (v, .error "insufficient audio data")
  else
    let samples := decodeSamples audioData
    let hasVoice : Bool := decide ((v.energyThresholdSq : Int) * samples.length < sumSquares samples)
    let buffer := v.buffer.set v.bufferIndex hasVoice
    let bufferIndex := (v.bufferIndex + 1) % v.bufferSize
    let trueCount := (buffer.filter id).length
    let smoothedVoice : Bool := decide (v.bufferSize / 2 < trueCount)
    if smoothedVoice then
      let v' : VAD :=
        { v with buffer := buffer, bufferIndex := bufferIndex,
                 voiceCounter := v.voiceCounter + 1, silenceCounter := 0 }
      (v', .ok (decide (v'.minVoiceDuration ≤ v'.voiceCounter)))
    else
      let v' : VAD :=
        { v with buffer := buffer, bufferIndex := bufferIndex,
                 silenceCounter := v.silenceCounter + 1, voiceCounter := 0 }
      (v', .ok (decide (v'.silenceCounter < v'.minSilenceDuration)))

/-- Mirror of Go `VAD.Reset`: clears the two run counters, keeps the
smoothing window. -/
def VAD.Reset (v : VAD) : VAD :=
  { v with voiceCounter := 0, silenceCounter := 0 }

/-- Modelled from the spec (§4.1), for the refinement claim about the VAD:
decode to signed 16-bit little-endian samples, RMS energy against
threshold 1000 (exact arithmetic: `RMS > 1000 ↔ Σ s² > 1000000·n`),
push into the 5-slot circular window, smoothed decision is the window
majority (at least 3 of 5), then: if smoothed, increment `voice_run`,
zero `silence_run`, return `voice_run ≥ 3`; otherwise increment
`silence_run`, zero `voice_run`, return `silence_run < 5`.  A frame
shorter than 2 bytes is an `InvalidFrame` error with no state change. -/
def specDetectActivity (v : VAD) (audioData : List Nat) : VAD × Except String Bool :=
  if audioData.length < 2 then (v, .error "InvalidFrame")
  else
    let samples := decodeSamples audioData
    let raw : Bool := decide (1000000 * (samples.length : Int) < sumSquares samples)
    let window := v.buffer.set v.bufferIndex raw
    let idx := (v.bufferIndex + 1) % 5
    let smoothed : Bool := decide (3 ≤ (window.filter (fun b => b)).length)
    if smoothed then
      let voiceRun := v.voiceCounter + 1
      ({ v with buffer := window, bufferIndex := idx,
                voiceCounter := voiceRun, silenceCounter := 0 },
       .ok (decide (3 ≤ voiceRun)))
    else
      let silenceRun := v.silenceCounter + 1
      ({ v with buffer := window, bufferIndex := idx,
                silenceCounter := silenceRun, voiceCounter := 0 },
       .ok (decide (silenceRun < 5)))

/-! ## Streaming ASR client (`internal/audio/stt/streaming.go`) -/

/-- Mirror of Go `StreamingConfig`.  The float field
`EndOfTurnConfidenceThreshold` is carried as a rational. -/
structure StreamingConfig where
  sampleRate : Nat
  encoding : String
  formatTurns : Bool
  endOfTurnConfidenceThreshold : ℚ
  minEndOfTurnSilenceWhenConfident : Nat
  maxTurnSilence : Nat
deriving DecidableEq

/-- Mirror of Go `StreamingResult` (the wall-clock `StartTime`/`EndTime`
fields, which the modelled code never reads, are omitted). -/
structure StreamingResult where
  messageType : String
  text : String
  confidence : ℚ
  isFinal : Bool
  turnID : String
  sessionID : String
deriving DecidableEq

/-- Mirror of Go `GetDefaultStreamingConfig`. -/
def GetDefaultStreamingConfig : StreamingConfig :=
  { sampleRate := 16000
    encoding := "pcm_s16le"
    formatTurns := false
    endOfTurnConfidenceThreshold := 0
    minEndOfTurnSilenceWhenConfident := 0
    maxTurnSilence := 0 }

/-- State of a `StreamingSTT` client.  The two Go buffered channels are
lists of pending items with explicit capacities; the WebSocket handle is
abstracted to the `isConnected` flag. -/
structure StreamingSTTState where
  config : StreamingConfig
  isConnected : Bool
  transcripts : List StreamingResult
  transcriptCap : Nat
  errors : List String
  errorCap : Nat
deriving DecidableEq

/-- Mirror of Go `NewStreamingSTT`: fresh channels with capacities 100
(transcripts) and 10 (errors). -/
def NewStreamingSTT (config : StreamingConfig) : StreamingSTTState :=
  { config := config
    isConnected := false
    transcripts := []
    transcriptCap := 100
    errors := []
    errorCap := 10 }

/-- Mirror of Go `StreamingSTT.GetConfig`. -/
def GetConfig (s : StreamingSTTState) : StreamingConfig := s.config

/-- Mirror of Go `StreamingSTT.Close` for the state we track: the
connection handle is dropped; the config field is left intact, so
`GetConfig` on a closed client still returns the session's config. -/
def StreamingSTTState.Close (s : StreamingSTTState) : StreamingSTTState :=
  { s with isConnected := false }

/-- Mirror of Go `sendError` (streaming.go 412-418): a non-blocking
`select` send on the 10-slot error channel.  If the buffer has room the
error is appended; otherwise the `default` branch runs, the buffer is
left untouched and the incoming error is the one dropped (with a log
line).  The boolean reports whether the error was enqueued. -/
def sendError (s : StreamingSTTState) (e : String) : StreamingSTTState × Bool :=
  if s.errors.length < s.errorCap then ({ s with errors := s.errors ++ [e] }, true)
  else (s, false)

/-- A blocking channel send `s.transcripts <- result` (streaming.go 340,
354): the reader goroutine waits until the 100-slot buffer has room, so
the item is always enqueued and never dropped. -/
def sendTranscript (s : StreamingSTTState) (r : StreamingResult) : StreamingSTTState :=
  { s with transcripts := s.transcripts ++ [r] }

/-- A server message after JSON decoding, as the `handleMessages` switch
sees it: the `message_type` discriminator plus the fields the handled
cases read. -/
structure ServerMsg where
  messageType : String
  text : String
  confidence : ℚ
  turnID : String
  sessionID : String
deriving DecidableEq

/-- Output of one iteration of the `handleMessages` switch
(streaming.go 316-380): transcript results emitted on the transcripts
channel (blocking sends), errors offered to the error channel
(non-blocking `sendError`), the updated `currentSessionID`, and whether
the reader returns. -/
structure ReaderOut where
  emitted : List StreamingResult
  offeredErrors : List String
  currentSessionID : String
  exits : Bool
deriving DecidableEq

/-- Mirror of the `handleMessages` message switch (streaming.go 316-380),
one server message at a time, with `cur` the reader's
`currentSessionID`.  Handled kinds: `SessionBegins` (records the
external session id), `Connected` (log only), `PartialTranscript` and
`FinalTranscript` (emitted with the forced `IsFinal` flag and the
current session id, non-empty text only), `Error` (offered to the error
channel), `SessionTerminated` (clears the id and exits).  Every other
`message_type` — including `Turn` — falls through to the `default`
case, which only logs the message. -/
def handleMessage (cur : String) (msg : ServerMsg) : ReaderOut :=
  if msg.messageType = "SessionBegins" then
    { emitted := [], offeredErrors := [], currentSessionID := msg.sessionID, exits := false }
  else if msg.messageType = "Connected" then
    { emitted := [], offeredErrors := [], currentSessionID := cur, exits := false }
  else if msg.messageType = "PartialTranscript" then
    let result : StreamingResult :=
      { messageType := "PartialTranscript", text := msg.text, confidence := msg.confidence,
        isFinal := false, turnID := msg.turnID, sessionID := cur }
    { emitted := if msg.text ≠ "" then [result] else [],
      offeredErrors := [], currentSessionID := cur, exits := false }
  else if msg.messageType = "FinalTranscript" then
    let result : StreamingResult :=
      { messageType := "FinalTranscript", text := msg.text, confidence := msg.confidence,
        isFinal := true, turnID := msg.turnID, sessionID := cur }
    { emitted := if msg.text ≠ "" then [result] else [],
      offeredErrors := [], currentSessionID := cur, exits := false }
  else if msg.messageType = "Error" then
    { emitted := [], offeredErrors := ["server error"], currentSessionID := cur, exits := false }
  else if msg.messageType = "SessionTerminated" then
    { emitted := [], offeredErrors := [], currentSessionID := "", exits := true }
  else
    { emitted := [], offeredErrors := [], currentSessionID := cur, exits := false }

/-- Query parameters of the dialled ASR WebSocket URL
(streaming.go 100-102): only `sample_rate` is set. -/
def connectQueryParams (cfg : StreamingConfig) : List (String × String) :=
  [("sample_rate", toString cfg.sampleRate)]

/-- Request headers of the ASR dial (streaming.go 105-106): the raw API
key in `Authorization`. -/
def connectHeaders (apiKey : String) : List (String × String) :=
  [("Authorization", apiKey)]

/-- Go `maxRetries` in `Connect`. -/
def connectMaxRetries : Nat := 3

/-- Mirror of the retry loop in `Connect` (streaming.go 111-137).
`dial i` is the outcome of dial attempt `i` (0-based); `retryCount` and
`delayMs` are the loop variables (initially 0 and 1000); `fuel` bounds
the loop by `connectMaxRetries - retryCount`.  Returns the number of
dial attempts performed until the first success (`none` if all fail)
and the list of back-off sleeps executed, in order. -/
def connectAttempts (dial : Nat → Bool) : Nat → Nat → Nat → Option Nat × List Nat
  | _, _, 0 => (none, [])
  | retryCount, delayMs, fuel + 1 =>
    if dial retryCount then (some (retryCount + 1), [])
    else if retryCount + 1 < connectMaxRetries then
      let rest := connectAttempts dial (retryCount + 1) (delayMs * 2) fuel
      (rest.1, delayMs :: rest.2)
    else (none, [])

/-- Mirror of Go `Connect`'s retry behaviour: up to 3 dial attempts,
sleeping `retryDelay` between attempts, starting at 1000 ms and doubling
after each sleep. -/
def Connect (dial : Nat → Bool) : Option Nat × List Nat :=
  connectAttempts dial 0 1000 connectMaxRetries

/-! ## Orchestrator session registry (`internal/orchestrator`, stt.go 784-1723) -/

/-- One entry of the bounded in-memory transcript log (Go
`TranscriptEntry`; the wall-clock timestamp is omitted). -/
structure TranscriptEntry where
  type : String
  text : String
  confidence : ℚ
  sessionID : String
deriving DecidableEq

/-- Mirror of the mutable fields of Go `InterviewSession` that the
modelled operations read or write.  The ASR client handle is tracked by
its config together with `sttGeneration`, which counts how many times
the client has been replaced; `ctxGeneration` counts fresh cancellation
contexts and `cancelFired` whether the current one has been cancelled. -/
structure SessionRec where
  status : String
  sttConfig : StreamingConfig
  sttGeneration : Nat
  ctxGeneration : Nat
  cancelFired : Bool
  hasSocket : Bool
  transcriptCount : Nat
  utteranceCount : Nat
  assemblyAIID : String
  transcript : List TranscriptEntry
deriving DecidableEq

/-- The streaming config built by `InitializeSession` and
`InitializeSessionWithLesson` (stt.go 1019-1026, 1109-1116) from the
request's sample rate and encoding; the turn parameters are fixed. -/
def initConfig (sampleRate : Nat) (encoding : String) : StreamingConfig :=
  { sampleRate := sampleRate
    encoding := encoding
    formatTurns := true
    endOfTurnConfidenceThreshold := 7 / 10
    minEndOfTurnSilenceWhenConfident := 1000
    maxTurnSilence := 3000 }

/-- The hard-coded streaming config built inside `reconnectSTTOnError`
(stt.go 1535-1542); note it is a literal, not
`session.StreamingSTT.GetConfig()`. -/
def reconnectConfig : StreamingConfig :=
  { sampleRate := 16000
    encoding := "pcm_s16le"
    formatTurns := true
    endOfTurnConfidenceThreshold := 7 / 10
    minEndOfTurnSilenceWhenConfident := 1000
    maxTurnSilence := 3000 }

/-- A fresh session record as `InitializeSession` builds it
(stt.go 1032-1042). -/
def newSession (cfg : StreamingConfig) : SessionRec :=
  { status := "initialized"
    sttConfig := cfg
    sttGeneration := 0
    ctxGeneration := 0
    cancelFired := false
    hasSocket := false
    transcriptCount := 0
    utteranceCount := 0
    assemblyAIID := ""
    transcript := [] }

/-- The `im.sessions` map, as an association list keyed by session id. -/
abbrev Registry : Type := List (String × SessionRec)

/-- Map lookup `im.sessions[sessionID]`. -/
def findSession : Registry → String → Option SessionRec
  | [], _ => none
  | p :: ps, id => if p.1 = id then some p.2 else findSession ps id

/-- Overwrite the record stored under `id` (a Go map assignment). -/
def setSession (reg : Registry) (id : String) (s : SessionRec) : Registry :=
  reg.map fun p => if p.1 = id then (p.1, s) else p

/-- Mirror of `delete(im.sessions, sessionID)`. -/
def removeSession (reg : Registry) (id : String) : Registry :=
  reg.filter fun p => p.1 ≠ id

/-- Registering a fresh session (`InitializeSession`, stt.go 1032-1045):
the freshly generated UUID is assumed absent (the code 409s otherwise,
which we keep as the identity on the registry). -/
def initializeSession (reg : Registry) (id : String) (cfg : StreamingConfig) : Registry :=
  match findSession reg id with
  | some _ => reg
  | none => reg ++ [(id, newSession cfg)]

/-- Result of a socket-attach attempt (`HandleWebSocket`). -/
inductive AttachOutcome
  | notFound
  | alreadyConnected
  | invalidState
  | upgradeFailed
  | attached
deriving DecidableEq

/-- The reconnection reset of `HandleWebSocket` (stt.go 1267-1274): for
a `disconnected` session, discard the prior ASR client and build a new
one from `session.StreamingSTT.GetConfig()` — the previous config, so
`sttConfig` is unchanged while `sttGeneration` counts the replacement —
and allocate a fresh cancellation context. -/
def attachReset (s : SessionRec) : SessionRec :=
  if s.status = "disconnected" then
    { s with ctxGeneration := s.ctxGeneration + 1
             cancelFired := false
             sttGeneration := s.sttGeneration + 1 }
  else s

/-- Mirror of `HandleWebSocket` (stt.go 1220-1302).  Admission is decided
by the current status: unknown id → 404; `connected` → 409 with the
registry untouched; `initialized` and `disconnected` proceed (any other
status would 400).  The existing client socket, if any, is closed
first (stt.go 1260-1264), then the `disconnected` path runs
`attachReset`.  `upgradeOk` is the outcome of the WebSocket upgrade; on
success the socket is attached and the status becomes `connected`, on
failure the mutations so far are kept but the status is unchanged. -/
def HandleWebSocket (reg : Registry) (id : String) (upgradeOk : Bool) :
    AttachOutcome × Registry :=
  match findSession reg id with
  | none => (.notFound, reg)
  | some s =>
    if s.status = "connected" then (.alreadyConnected, reg)
    else if s.status = "initialized" ∨ s.status = "disconnected" then
      let s2 := attachReset { s with hasSocket := false }
      if upgradeOk then
        (.attached, setSession reg id { s2 with hasSocket := true, status := "connected" })
      else
        (.upgradeFailed, setSession reg id s2)
    else (.invalidState, reg)

/-- The teardown `defer` of `handleAudioStream` (stt.go 1478-1492): close
the client socket, set the status to `disconnected`, close the ASR
client, fire the cancellation context.  The record stays registered. -/
def teardownSession (s : SessionRec) : SessionRec :=
  { s with hasSocket := false, status := "disconnected", cancelFired := true }

/-- The side effects `CloseSession` performs on the record before
unregistering it. -/
structure CloseEffects where
  socketClosed : Bool
  cancelFired : Bool
  sttClosed : Bool
  statusWritten : Option String
deriving DecidableEq

/-- Result of `CloseSession`. -/
inductive CloseOutcome
  | notFound
  | closed
deriving DecidableEq

/-- Mirror of `CloseSession` (stt.go 1680-1723).  A missing id yields
404.  For an existing record, the socket close, the `disconnected`
status write, the cancellation and the ASR-client close happen only
when the current status is `connected`; in every case the record is
then deleted from the map and `{status:"closed"}` is returned. -/
def CloseSession (reg : Registry) (id : String) :
    CloseOutcome × Registry × CloseEffects :=
  match findSession reg id with
  | none => (.notFound, reg, ⟨false, false, false, none⟩)
  | some s =>
    if s.status = "connected" then
      (.closed, removeSession reg id, ⟨true, true, true, some "disconnected"⟩)
    else
      (.closed, removeSession reg id, ⟨false, false, false, none⟩)

/-- Mirror of `getTranscriptType` (stt.go 1450-1461). -/
def getTranscriptType (messageType : String) : String :=
  if messageType = "PartialTranscript" then "partial"
  else if messageType = "FinalTranscript" then "final"
  else if messageType = "Turn" then "utterance"
  else "unknown"

/-- The JSON frame `handleTranscript` offers to the client socket. -/
structure ClientMsg where
  type : String
  messageType : String
  text : String
  confidence : ℚ
  isFinal : Bool
  sessionID : String
deriving DecidableEq

/-- Mirror of `handleTranscript` (stt.go 1362-1447): record the external
session id if not yet known, increment `TranscriptCount`, append a
`TranscriptEntry`, then on `SessionBegins` re-record the id, on `Turn`
with non-empty text increment `UtteranceCount` (the external
`SessionState` key/value updates and the placeholder `analyzeUtterance`
log are outside the model), and finally offer a `{type:"transcript"}`
JSON frame to the client socket when one is attached. -/
def handleTranscript (s : SessionRec) (result : StreamingResult) :
    SessionRec × List ClientMsg :=
  let s1 :=
    if result.sessionID ≠ "" ∧ s.assemblyAIID = "" then
      { s with assemblyAIID := result.sessionID }
    else s
  let s2 :=
    { s1 with transcriptCount := s1.transcriptCount + 1
              transcript := s1.transcript ++
                [⟨getTranscriptType result.messageType, result.text,
                  result.confidence, result.sessionID⟩] }
  let s3 :=
    if result.messageType = "SessionBegins" then
      if result.sessionID ≠ "" then { s2 with assemblyAIID := result.sessionID } else s2
    else if result.messageType = "Turn" ∧ result.text ≠ "" then
      { s2 with utteranceCount := s2.utteranceCount + 1 }
    else s2
  let msgs :=
    if s3.hasSocket then
      [⟨"transcript", result.messageType, result.text, result.confidence,
        result.isFinal, s3.assemblyAIID⟩]
    else []
  (s3, msgs)

/-! ## Supervisor audio loop (`handleAudioStream`, stt.go 1477-1677)

The `for { select { ... } }` loop is modelled as a step function over
events: a silence-ticker tick, an audio frame read from the client
socket (carrying the wall-clock time and the outcomes of the
`SendAudio` call and, if needed, of the reconnect's `Connect`
attempts), a socket read error, and context cancellation. -/

/-- Constants of `handleAudioStream` (stt.go 1497-1509), in ms. -/
def maxUtteranceDurationMs : Nat := 30000
def minUtteranceDurationMs : Nat := 500
def silenceCheckIntervalMs : Nat := 100
def maxSilenceCount : Nat := 12
def maxReconnectAttempts : Nat := 3

/-- Events observed by the audio loop. For a `frame`, `sendOk` is the
outcome `SendAudio` would report and `connectOk` whether the reconnect
protocol's `Connect` retries would succeed (both resolved by the
environment). -/
inductive Ev
  | tick (now : Nat)
  | frame (now : Nat) (data : List Nat) (sendOk : Bool) (connectOk : Bool)
  | readErr (isNormalClose : Bool)
  | ctxDone
deriving DecidableEq

/-- Observable actions of one loop iteration. `forward` records a frame
being handed to `StreamingSTT.SendAudio`; `closeSTT` a
`StreamingSTT.Close()` call; `reconnect` the construction of a
replacement ASR client inside `reconnectSTTOnError`; the two boundary
actions the utterance-end signal with its cause. -/
inductive Act
  | forward (data : List Nat)
  | boundarySilence
  | boundaryMax
  | closeSTT
  | reconnect
  | terminate
deriving DecidableEq

/-- Loop-local state of `handleAudioStream` plus the session's VAD and
the ASR-client generation counter. `terminated` records that the loop
has returned (after which the deferred teardown has run). -/
structure SupState where
  vad : VAD
  inUtterance : Bool
  utteranceStartTime : Nat
  lastVoiceTime : Nat
  continuousSilenceCount : Nat
  reconnectAttempts : Nat
  sttGeneration : Nat
  terminated : Bool
deriving DecidableEq

/-- The loop returns: the deferred teardown closes the socket, sets the
status to `disconnected`, closes the ASR client and cancels the context
(stt.go 1478-1492). Only the STT close is an `Act` here; the record
updates are `teardownSession` at the registry level. -/
def supTeardown (s : SupState) : SupState × List Act :=
  ({ s with terminated := true }, [Act.closeSTT, Act.terminate])

/-- One iteration of the `handleAudioStream` loop on one event.

* `tick` (stt.go 1583-1608): when in an utterance past the 500 ms
  minimum duration with ≥100 ms since the last voiced frame, the
  continuous-silence counter is incremented; at 12 the utterance ends
  with a silence boundary — the ASR client is deliberately left alone
  ("Keep STT connection alive for continued listening").
* `frame` (stt.go 1609-1674): run the VAD (errors drop the frame); if
  still in an utterance past 30 s, end it with a max-duration boundary
  and skip the frame (again leaving the ASR client alone); otherwise a
  voiced frame is handed to `SendAudio` — on success the voice
  timestamps/counters are updated and a new utterance may open
  (resetting `reconnectAttempts`), on failure `reconnectSTTOnError`
  runs (stt.go 1512-1574): give up past 3 attempts, else close the old
  client, build a replacement and connect; a failed connect ends the
  loop.
* `readErr` / `ctxDone` (stt.go 1580-1582, 1611-1619): the loop
  returns and the deferred teardown runs. -/
def step (s : SupState) (e : Ev) : SupState × List Act :=
  if s.terminated then (s, [])
  else match e with
  | .ctxDone => supTeardown s
  | .readErr _ => supTeardown s
  | .tick now =>
    if s.inUtterance then
      if minUtteranceDurationMs < now - s.utteranceStartTime then
        if silenceCheckIntervalMs ≤ now - s.lastVoiceTime then
          let c := s.continuousSilenceCount + 1
          if maxSilenceCount ≤ c then
            ({ s with continuousSilenceCount := c, inUtterance := false },
             [Act.boundarySilence])
          else
            ({ s with continuousSilenceCount := c }, [])
        else (s, [])
      else (s, [])
    else (s, [])
  | .frame now data sendOk connectOk =>
    let vr := DetectActivity s.vad data
    let s := { s with vad := vr.1 }
    match vr.2 with
    | .error _ => (s, [])
    | .ok hasVoice =>
      if s.inUtterance ∧ maxUtteranceDurationMs < now - s.utteranceStartTime then
        ({ s with inUtterance := false }, [Act.boundaryMax])
      else if hasVoice then
        if sendOk then
          let s := { s with lastVoiceTime := now, continuousSilenceCount := 0 }
          let s :=
            if s.inUtterance then s
            else { s with inUtterance := true, utteranceStartTime := now,
                          reconnectAttempts := 0 }
          (s, [Act.forward data])
        else
          -- SendAudio failed: reconnectSTTOnError (stt.go 1512-1574)
          if maxReconnectAttempts ≤ s.reconnectAttempts then
            -- give up: the loop returns, teardown closes the client
            let t := supTeardown s
            (t.1, Act.forward data :: t.2)
          else
            let s := { s with reconnectAttempts := s.reconnectAttempts + 1,
                              sttGeneration := s.sttGeneration + 1 }
            if connectOk then
              (s, [Act.forward data, Act.closeSTT, Act.reconnect])
            else
              let t := supTeardown s
              (t.1, Act.forward data :: Act.closeSTT :: Act.reconnect :: t.2)
      else (s, [])

/-- Run the loop over a list of events, collecting all actions. -/
def runSteps (s : SupState) : List Ev → SupState × List Act
  | [] => (s, [])
  | e :: es =>
    let r := step s e
    let r' := runSteps r.1 es
    (r'.1, r.2 ++ r'.2)

/-- The frames a step hands to `SendAudio`. -/
def forwardedOf (acts : List Act) : List (List Nat) :=
  acts.filterMap fun a => match a with
    | .forward d => some d
    | _ => none

/-- The audio frames carried by a list of events, in arrival order. -/
def framesOf : List Ev → List (List Nat)
  | [] => []
  | .frame _ d _ _ :: es => d :: framesOf es
  | _ :: es => framesOf es

/-- The subsequence of frames for which the (stateful) VAD returns
`true`, threading the VAD state exactly as the loop does. -/
def vadTrue (v : VAD) : List (List Nat) → List (List Nat)
  | [] => []
  | d :: ds =>
    let r := DetectActivity v d
    match r.2 with
    | .ok true => d :: vadTrue r.1 ds
    | _ => vadTrue r.1 ds

/-- Whether an event is a voiced-frame send failure (the only trigger of
the reconnect protocol). -/
def sendFailureEvent : Ev → Bool
  | .frame _ _ sendOk _ => !sendOk
  | _ => false

/-- Whether an event terminates the audio loop from outside: a socket
read error/close or context cancellation. -/
def terminationEvent : Ev → Bool
  | .readErr _ => true
  | .ctxDone => true
  | _ => false

/-! ## Registry-level operations, for the status invariant -/

/-- The operations that write a session's status field: `init` writes
`"initialized"` (stt.go 1035), a successful attach writes `"connected"`
(stt.go 1285), the audio-loop teardown writes `"disconnected"`
(stt.go 1484), and close writes `"disconnected"` before deleting the
record (stt.go 1700, 1707). -/
inductive RegOp
  | init (id : String) (cfg : StreamingConfig)
  | attach (id : String) (upgradeOk : Bool)
  | teardown (id : String)
  | close (id : String)

/-- Apply one registry operation. -/
def applyOp (reg : Registry) : RegOp → Registry
  | .init id cfg => initializeSession reg id cfg
  | .attach id upgradeOk => (HandleWebSocket reg id upgradeOk).2
  | .teardown id =>
    match findSession reg id with
    | some s => setSession reg id (teardownSession s)
    | none => reg
  | .close id => (CloseSession reg id).2.1

/-- The three status strings the code ever assigns. -/
def allowedStatus (st : String) : Prop :=
  st = "initialized" ∨ st = "connected" ∨ st = "disconnected"

instance (st : String) : Decidable (allowedStatus st) := by
  unfold allowedStatus; infer_instance

/-- Every registered session has an allowed status. -/
def registryStatusOK (reg : Registry) : Prop :=
  ∀ p ∈ reg, allowedStatus p.2.status

instance (reg : Registry) : Decidable (registryStatusOK reg) := by
  unfold registryStatusOK; infer_instance

/-! ## Helper lemmas -/

theorem findSession_removeSession (reg : Registry) (id : String) :
    findSession (removeSession reg id) id = none := by
  induction reg with
  | nil => rfl
  | cons p ps ih =>
    by_cases h : p.1 = id
    · simpa [removeSession, h] using ih
    · simpa [removeSession, findSession, h] using ih

theorem findSession_setSession (reg : Registry) (id : String) (s t : SessionRec)
    (h : findSession reg id = some s) :
    findSession (setSession reg id t) id = some t := by
  induction reg with
  | nil => simp [findSession] at h
  | cons p ps ih =>
    by_cases hp : p.1 = id
    · simp [setSession, findSession, hp]
    · simp [findSession, hp] at h
      simpa [setSession, findSession, hp] using ih h

theorem findSession_mem (reg : Registry) (id : String) (s : SessionRec)
    (h : findSession reg id = some s) : ∃ q ∈ reg, q.2 = s := by
  induction reg with
  | nil => simp [findSession] at h
  | cons p ps ih =>
    by_cases hp : p.1 = id
    · simp [findSession, hp] at h
      exact ⟨p, List.mem_cons_self p ps, h⟩
    · simp [findSession, hp] at h
      obtain ⟨q, hq, hq2⟩ := ih h
      exact ⟨q, List.mem_cons_of_mem p hq, hq2⟩

theorem mem_setSession (reg : Registry) (id : String) (t : SessionRec)
    (p : String × SessionRec) (h : p ∈ setSession reg id t) :
    p.2 = t ∨ p ∈ reg := by
  unfold setSession at h
  obtain ⟨q, hq, hqe⟩ := List.mem_map.1 h
  by_cases hid : q.1 = id
  · left; rw [if_pos hid] at hqe; rw [← hqe]
  · right; rw [if_neg hid] at hqe; rw [← hqe]; exact hq

theorem mem_removeSession (reg : Registry) (id : String)
    (p : String × SessionRec) (h : p ∈ removeSession reg id) : p ∈ reg :=
  List.mem_of_mem_filter h

theorem attachReset_status (s : SessionRec) : (attachReset s).status = s.status := by
  unfold attachReset
  split <;> rfl

/-! ## Claim C7 -/

/-- C7: for a VAD carrying the default parameters (threshold 1000,
min-voice 3, min-silence 5, 5-slot window), `DetectActivity` computes
exactly the spec algorithm — decode to signed 16-bit little-endian
samples, RMS energy vs 1000, 5-slot circular window with majority
smoothing, then the voice-run/silence-run hysteresis returning
`voice_run ≥ 3` resp. `silence_run < 5` — and a frame shorter than
2 bytes yields an error with no change to the state. -/
theorem c7_vad_matches_spec (v : VAD) (d : List Nat)
    (h1 : v.energyThresholdSq = 1000000) (h2 : v.minVoiceDuration = 3)
    (h3 : v.minSilenceDuration = 5) (h4 : v.bufferSize = 5) :
    (DetectActivity v d).1 = (specDetectActivity v d).1 ∧
    ((DetectActivity v d).2).toOption = ((specDetectActivity v d).2).toOption ∧
    (d.length < 2 →
      (DetectActivity v d).1 = v ∧
      (DetectActivity v d).2 = .error "insufficient audio data") := by
  refine ⟨?_, ?_, ?_⟩
  · unfold DetectActivity specDetectActivity
    rw [h1, h2, h3, h4]
    split
    · rfl
    · simp only [id]
      norm_num
      rfl
  · unfold DetectActivity specDetectActivity
    rw [h1, h2, h3, h4]
    split
    · rfl
    · simp only [id]
      norm_num
      rfl
  · intro hlen
    unfold DetectActivity
    rw [if_pos hlen]
    exact ⟨rfl, rfl⟩

/-- Witness for C7: the fresh `NewVAD` state on a concrete loud frame
(sample 4096). -/
theorem c7_vad_matches_spec_witness :
    (DetectActivity NewVAD [0, 16]).1 = (specDetectActivity NewVAD [0, 16]).1 ∧
    ((DetectActivity NewVAD [0, 16]).2).toOption
      = ((specDetectActivity NewVAD [0, 16]).2).toOption :=
  ⟨(c7_vad_matches_spec NewVAD [0, 16] rfl rfl rfl rfl).1,
   (c7_vad_matches_spec NewVAD [0, 16] rfl rfl rfl rfl).2.1⟩

/-! ## Claim C1 -/

/-- C1 (code bug): a server message of kind `Turn` with non-empty text
is NOT emitted on the ASR client's transcript channel — the
`handleMessages` switch has no `Turn` case, so the message falls into
the logging `default` branch and nothing is emitted — even though the
supervisor's `handleTranscript` does count a `Turn` transcript event
with non-empty text as an utterance (shown here at a concrete session),
so `UtteranceCount` can never be incremented through this client. -/
theorem c1_turn_message_dropped_by_reader :
    (handleMessage "" ⟨"Turn", "hello", 9 / 10, "t1", "ext"⟩).emitted = [] ∧
    (handleMessage "" ⟨"Turn", "hello", 9 / 10, "t1", "ext"⟩).exits = false ∧
    (handleTranscript (newSession (initConfig 16000 "pcm_s16le"))
        ⟨"Turn", "hello", 9 / 10, false, "t1", "ext"⟩).1.utteranceCount = 1 := by
  refine ⟨rfl, rfl, ?_⟩
  rfl

/-! ## Claim C4 -/

/-- C4 counterexample: for a session initialized with sample rate 8000
the Reconnect Protocol builds its replacement client from the
hard-coded default config, whose sample rate 16000 differs from the
session's previous config — not "the same streaming config". -/
theorem c4_counterexample :
    (initConfig 8000 "pcm_s16le").sampleRate = 8000 ∧
    reconnectConfig.sampleRate = 16000 ∧
    reconnectConfig ≠ initConfig 8000 "pcm_s16le" := by
  refine ⟨rfl, rfl, fun h => ?_⟩
  have := congrArg StreamingConfig.sampleRate h
  simp [reconnectConfig, initConfig] at this

/-- C4 amended: the replacement client of `reconnectSTTOnError` is built
from the fixed default config (16000 Hz, `pcm_s16le`, `format_turns`
with threshold 0.7, 1000 ms confident silence, 3000 ms max silence);
the turn parameters therefore always coincide with the previous
config's — session init hard-codes the same values — but the previous
config as a whole is preserved exactly when the session was created
with the default sample rate and encoding. -/
theorem c4_reconnect_uses_default_config (sr : Nat) (enc : String) :
    reconnectConfig.formatTurns = (initConfig sr enc).formatTurns ∧
    reconnectConfig.endOfTurnConfidenceThreshold
      = (initConfig sr enc).endOfTurnConfidenceThreshold ∧
    reconnectConfig.minEndOfTurnSilenceWhenConfident
      = (initConfig sr enc).minEndOfTurnSilenceWhenConfident ∧
    reconnectConfig.maxTurnSilence = (initConfig sr enc).maxTurnSilence ∧
    (reconnectConfig = initConfig sr enc ↔ sr = 16000 ∧ enc = "pcm_s16le") := by
  refine ⟨rfl, rfl, rfl, rfl, ?_, ?_⟩
  · intro h
    refine ⟨?_, ?_⟩
    · have := congrArg StreamingConfig.sampleRate h
      simpa [reconnectConfig, initConfig] using this.symm
    · have := congrArg StreamingConfig.encoding h
      simpa [reconnectConfig, initConfig] using this.symm
  · rintro ⟨rfl, rfl⟩
    rfl

/-! ## Claim C6 -/

/-- C6 counterexample: with the 10-slot error buffer full, `sendError`
drops the INCOMING error and leaves the buffer — including its oldest
entry — untouched, contradicting "the oldest errors are dropped". -/
theorem c6_counterexample :
    (sendError
      { config := GetDefaultStreamingConfig, isConnected := true,
        transcripts := [], transcriptCap := 100,
        errors := ["e0", "e1", "e2", "e3", "e4", "e5", "e6", "e7", "e8", "e9"],
        errorCap := 10 } "e10").1.errors
      = ["e0", "e1", "e2", "e3", "e4", "e5", "e6", "e7", "e8", "e9"] ∧
    (sendError
      { config := GetDefaultStreamingConfig, isConnected := true,
        transcripts := [], transcriptCap := 100,
        errors := ["e0", "e1", "e2", "e3", "e4", "e5", "e6", "e7", "e8", "e9"],
        errorCap := 10 } "e10").2 = false := by
  exact ⟨rfl, rfl⟩

/-- C6 amended: the client buffers up to 100 pending transcripts and 10
pending errors; when the error buffer is full the NEWEST (incoming)
error is the one dropped, with a log line, the buffer staying as it
was; transcript sends block instead, so a transcript is always enqueued
and never dropped. -/
theorem c6_buffer_discipline (cfg : StreamingConfig) (s : StreamingSTTState)
    (e : String) (r : StreamingResult) (hfull : s.errorCap ≤ s.errors.length) :
    (NewStreamingSTT cfg).transcriptCap = 100 ∧
    (NewStreamingSTT cfg).errorCap = 10 ∧
    (sendError s e).1 = s ∧
    (sendError s e).2 = false ∧
    (sendTranscript s r).transcripts = s.transcripts ++ [r] := by
  refine ⟨rfl, rfl, ?_, ?_, rfl⟩ <;>
    simp [sendError, Nat.not_lt.2 hfull]

/-- Witness for C6 at a concrete full buffer. -/
theorem c6_buffer_discipline_witness :
    (sendError
      { config := GetDefaultStreamingConfig, isConnected := true,
        transcripts := [], transcriptCap := 100,
        errors := ["a", "b", "c", "d", "e", "f", "g", "h", "i", "j"],
        errorCap := 10 } "k").2 = false :=
  (c6_buffer_discipline GetDefaultStreamingConfig _ "k"
    ⟨"FinalTranscript", "t", 1, true, "", ""⟩ (by decide)).2.2.2.1

/-! ## Claim C9 -/

/-- C9 counterexample: the dialled ASR URL carries only `sample_rate` as
a query parameter — neither `encoding` nor `format_turns` is set, so
the connection attempt does not carry the encoding as the claim
states. -/
theorem c9_counterexample :
    (connectQueryParams (initConfig 16000 "pcm_s16le")).map Prod.fst
      = ["sample_rate"] ∧
    "encoding" ∉ (connectQueryParams (initConfig 16000 "pcm_s16le")).map Prod.fst ∧
    "format_turns" ∉ (connectQueryParams (initConfig 16000 "pcm_s16le")).map Prod.fst := by
  refine ⟨rfl, ?_, ?_⟩ <;> decide

/-- C9 amended: every connection attempt dials with only `sample_rate`
as a query parameter and the API key in the `Authorization` header; on
dial failure it retries up to 3 total attempts with exponential
backoff, sleeping 1 s before the second attempt and 2 s before the
third. -/
theorem c9_connect_retry (cfg : StreamingConfig) (apiKey : String)
    (dial : Nat → Bool) :
    (connectQueryParams cfg).map Prod.fst = ["sample_rate"] ∧
    (connectHeaders apiKey).map Prod.fst = ["Authorization"] ∧
    (dial 0 = true → Connect dial = (some 1, [])) ∧
    (dial 0 = false → dial 1 = true → Connect dial = (some 2, [1000])) ∧
    (dial 0 = false → dial 1 = false → dial 2 = true →
      Connect dial = (some 3, [1000, 2000])) ∧
    (dial 0 = false → dial 1 = false → dial 2 = false →
      Connect dial = (none, [1000, 2000])) := by
  refine ⟨rfl, rfl, ?_, ?_, ?_, ?_⟩
  · intro h0
    simp [Connect, connectAttempts, h0]
  · intro h0 h1
    simp [Connect, connectAttempts, h0, h1, connectMaxRetries]
  · intro h0 h1 h2
    simp [Connect, connectAttempts, h0, h1, h2, connectMaxRetries]
  · intro h0 h1 h2
    simp [Connect, connectAttempts, h0, h1, h2, connectMaxRetries]

/-- Witness for C9: with every dial failing, 3 attempts are made and the
sleeps are 1 s then 2 s. -/
theorem c9_connect_retry_witness :
    Connect (fun _ => false) = (none, [1000, 2000]) :=
  (c9_connect_retry (initConfig 16000 "pcm_s16le") "" (fun _ => false)).2.2.2.2.2
    rfl rfl rfl

/-! ## Claim C3 -/

/-- C3: the result of a socket-attach attempt (with a succeeding
WebSocket upgrade) is decided by the session's current status: an
unregistered id is rejected with NotFound; a `connected` session is
rejected with AlreadyConnected leaving the registry untouched; an
`initialized` session is accepted and becomes `connected` with the
socket attached; a `disconnected` session is accepted as a
reconnection — the prior ASR client is discarded for a fresh one built
from the previous config (`sttGeneration` bumped, `sttConfig`
unchanged), a fresh cancellation context is allocated (`ctxGeneration`
bumped, not yet fired) and the status becomes `connected`. -/
theorem c3_attach_admission (reg : Registry) (id : String) :
    (findSession reg id = none → HandleWebSocket reg id true = (.notFound, reg)) ∧
    (∀ s, findSession reg id = some s →
      (s.status = "connected" →
        HandleWebSocket reg id true = (.alreadyConnected, reg)) ∧
      (s.status = "initialized" →
        (HandleWebSocket reg id true).1 = .attached ∧
        findSession (HandleWebSocket reg id true).2 id =
          some { s with hasSocket := true, status := "connected" }) ∧
      (s.status = "disconnected" →
        (HandleWebSocket reg id true).1 = .attached ∧
        findSession (HandleWebSocket reg id true).2 id =
          some { s with hasSocket := true, status := "connected",
                        ctxGeneration := s.ctxGeneration + 1,
                        cancelFired := false,
                        sttGeneration := s.sttGeneration + 1 })) := by
  constructor
  · intro h
    simp [HandleWebSocket, h]
  · intro s hs
    refine ⟨?_, ?_, ?_⟩
    · intro hst
      simp [HandleWebSocket, hs, hst]
    · intro hst
      have hr : HandleWebSocket reg id true =
          (.attached, setSession reg id { s with hasSocket := true, status := "connected" }) := by
        simp [HandleWebSocket, attachReset, hs, hst]
      rw [hr]
      exact ⟨rfl, findSession_setSession reg id s _ hs⟩
    · intro hst
      have hr : HandleWebSocket reg id true =
          (.attached, setSession reg id
            { s with hasSocket := true, status := "connected",
                     ctxGeneration := s.ctxGeneration + 1,
                     cancelFired := false,
                     sttGeneration := s.sttGeneration + 1 }) := by
        simp [HandleWebSocket, attachReset, hs, hst]
      rw [hr]
      exact ⟨rfl, findSession_setSession reg id s _ hs⟩

/-- Witness for C3: an `initialized` session is attached and becomes
`connected`. -/
theorem c3_attach_admission_witness :
    (HandleWebSocket [("s1", newSession (initConfig 16000 "pcm_s16le"))] "s1" true).1
      = AttachOutcome.attached :=
  ((c3_attach_admission [("s1", newSession (initConfig 16000 "pcm_s16le"))] "s1").2
    (newSession (initConfig 16000 "pcm_s16le")) rfl).2.1 rfl |>.1

/-! ## Claim C5 -/

/-- C5 counterexample: closing a session whose status is `initialized`
unregisters the record and reports `closed`, but does NOT fire the
cancellation handle, close the ASR client, or write any status — in
particular the session is never "transitioned to closed" — refuting
that close performs the full teardown whatever the current status. -/
theorem c5_counterexample :
    (CloseSession [("s1", newSession (initConfig 16000 "pcm_s16le"))] "s1").1
      = CloseOutcome.closed ∧
    (CloseSession [("s1", newSession (initConfig 16000 "pcm_s16le"))] "s1").2.1 = [] ∧
    (CloseSession [("s1", newSession (initConfig 16000 "pcm_s16le"))] "s1").2.2.cancelFired
      = false ∧
    (CloseSession [("s1", newSession (initConfig 16000 "pcm_s16le"))] "s1").2.2.sttClosed
      = false ∧
    (CloseSession [("s1", newSession (initConfig 16000 "pcm_s16le"))] "s1").2.2.statusWritten
      = none := by
  refine ⟨rfl, rfl, rfl, rfl, rfl⟩

/-- C5 amended: closing a nonexistent id yields NotFound; closing an
existing session always reports `closed` and unregisters the record (so
the id is absent from the registry afterwards, and a repeated close
yields NotFound), but the socket close, the cancellation, the ASR-client
close and the status write (`"disconnected"`, never `"closed"`) are
performed only when the session's current status is `connected`. -/
theorem c5_close_behaviour (reg : Registry) (id : String) :
    (findSession reg id = none →
      CloseSession reg id = (.notFound, reg, ⟨false, false, false, none⟩)) ∧
    (∀ s, findSession reg id = some s →
      (CloseSession reg id).1 = .closed ∧
      findSession (CloseSession reg id).2.1 id = none ∧
      (s.status = "connected" →
        (CloseSession reg id).2.2 = ⟨true, true, true, some "disconnected"⟩) ∧
      (s.status ≠ "connected" →
        (CloseSession reg id).2.2 = ⟨false, false, false, none⟩) ∧
      (CloseSession reg id).2.2.statusWritten ≠ some "closed") := by
  constructor
  · intro h
    simp [CloseSession, h]
  · intro s hs
    by_cases hst : s.status = "connected"
    · refine ⟨?_, ?_, ?_, ?_, ?_⟩ <;>
        simp [CloseSession, hs, hst, findSession_removeSession]
    · refine ⟨?_, ?_, ?_, ?_, ?_⟩ <;>
        simp [CloseSession, hs, hst, findSession_removeSession]

/-- Witness for C5: closing a registered `connected` session removes it
and performs the teardown. -/
theorem c5_close_behaviour_witness :
    findSession
      (CloseSession [("s1", { newSession (initConfig 16000 "pcm_s16le") with
        status := "connected", hasSocket := true })] "s1").2.1 "s1" = none :=
  ((c5_close_behaviour [("s1", { newSession (initConfig 16000 "pcm_s16le") with
      status := "connected", hasSocket := true })] "s1").2 _ rfl).2.1

/-! ## Claim C10 -/

/-- C10: the status field only ever takes the values `"initialized"`,
`"connected"` or `"disconnected"` — no registry operation (init,
attach, audio-loop teardown, close) assigns `"closed"`; a closed
session is represented solely by its record being deleted. -/
theorem c10_status_invariant (reg : Registry) (op : RegOp)
    (h : registryStatusOK reg) : registryStatusOK (applyOp reg op) := by
  cases op with
  | init id cfg =>
    intro p hp
    simp only [applyOp, initializeSession] at hp
    cases hfind : findSession reg id with
    | some s => rw [hfind] at hp; exact h p hp
    | none =>
      rw [hfind] at hp
      rcases List.mem_append.1 hp with hmem | hmem
      · exact h p hmem
      · simp only [List.mem_singleton] at hmem
        subst hmem
        left; rfl
  | attach id upgradeOk =>
    intro p hp
    simp only [applyOp, HandleWebSocket] at hp
    cases hfind : findSession reg id with
    | none => rw [hfind] at hp; exact h p hp
    | some s =>
      rw [hfind] at hp
      dsimp only at hp
      obtain ⟨q, hq, hqs⟩ := findSession_mem reg id s hfind
      have hs_allowed : allowedStatus s.status := hqs ▸ h q hq
      by_cases hc : s.status = "connected"
      · rw [if_pos hc] at hp; exact h p hp
      · rw [if_neg hc] at hp
        by_cases hok : s.status = "initialized" ∨ s.status = "disconnected"
        · rw [if_pos hok] at hp
          by_cases hup : upgradeOk = true
          · rw [if_pos hup] at hp
            rcases mem_setSession _ _ _ _ hp with h2 | h2
            · rw [h2]; right; left; rfl
            · exact h p h2
          · rw [if_neg hup] at hp
            rcases mem_setSession _ _ _ _ hp with h2 | h2
            · rw [h2, attachReset_status]
              exact hs_allowed
            · exact h p h2
        · rw [if_neg hok] at hp; exact h p hp
  | teardown id =>
    intro p hp
    simp only [applyOp] at hp
    cases hfind : findSession reg id with
    | none => rw [hfind] at hp; exact h p hp
    | some s =>
      rw [hfind] at hp
      rcases mem_setSession _ _ _ _ hp with h2 | h2
      · rw [h2]; right; right; rfl
      · exact h p h2
  | close id =>
    intro p hp
    simp only [applyOp, CloseSession] at hp
    cases hfind : findSession reg id with
    | none => rw [hfind] at hp; exact h p hp
    | some s =>
      rw [hfind] at hp
      dsimp only at hp
      split at hp <;> exact h p (mem_removeSession _ _ _ hp)

/-- Witness for C10: one attach step on a registry holding one
`initialized` session keeps every status among the three values. -/
theorem c10_status_invariant_witness :
    registryStatusOK
      (applyOp [("s1", newSession (initConfig 16000 "pcm_s16le"))]
        (RegOp.attach "s1" true)) :=
  c10_status_invariant [("s1", newSession (initConfig 16000 "pcm_s16le"))]
    (RegOp.attach "s1" true) (by decide)

/-! ## Claim C2 -/

/-- C2: a loop step that emits an utterance boundary — silence-triggered
or max-duration — never closes, replaces or reconnects the ASR client
(no `closeSTT`/`reconnect` action, `sttGeneration` unchanged); and any
step that does close or replace the ASR client was triggered by a
voiced-frame `SendAudio` failure (the reconnect protocol) or by a
terminating event (socket close/error or cancellation). -/
theorem c2_boundary_never_touches_asr (s : SupState) (e : Ev) :
    ((Act.boundarySilence ∈ (step s e).2 ∨ Act.boundaryMax ∈ (step s e).2) →
      Act.closeSTT ∉ (step s e).2 ∧ Act.reconnect ∉ (step s e).2 ∧
      (step s e).1.sttGeneration = s.sttGeneration) ∧
    ((Act.closeSTT ∈ (step s e).2 ∨ Act.reconnect ∈ (step s e).2 ∨
      (step s e).1.sttGeneration ≠ s.sttGeneration) →
      sendFailureEvent e = true ∨ terminationEvent e = true) := by
  by_cases ht : s.terminated
  · simp [step, ht]
  · cases e with
    | ctxDone => simp [step, supTeardown, ht, terminationEvent]
    | readErr b => simp [step, supTeardown, ht, terminationEvent]
    | tick now =>
      simp only [step, ht]
      repeat' split
      all_goals simp_all [sendFailureEvent, terminationEvent]
    | frame now data sendOk connectOk =>
      simp only [step, ht, supTeardown]
      repeat' split
      all_goals simp_all [sendFailureEvent, terminationEvent]

/-- Witness for C2: a tick on a session 1.2 s into silence emits the
silence boundary and leaves the ASR client untouched. -/
theorem c2_boundary_never_touches_asr_witness :
    Act.closeSTT ∉
      (step
        { vad := NewVAD, inUtterance := true, utteranceStartTime := 0,
          lastVoiceTime := 0, continuousSilenceCount := 11,
          reconnectAttempts := 0, sttGeneration := 0, terminated := false }
        (Ev.tick 1000)).2 :=
  ((c2_boundary_never_touches_asr
    { vad := NewVAD, inUtterance := true, utteranceStartTime := 0,
      lastVoiceTime := 0, continuousSilenceCount := 11,
      reconnectAttempts := 0, sttGeneration := 0, terminated := false }
    (Ev.tick 1000)).1 (Or.inl (by decide))).1

/-! ## Claim C8 -/

theorem step_of_terminated (s : SupState) (e : Ev) (h : s.terminated = true) :
    step s e = (s, []) := by
  simp [step, h]

theorem runSteps_of_terminated (s : SupState) (es : List Ev)
    (h : s.terminated = true) : runSteps s es = (s, []) := by
  induction es with
  | nil => rfl
  | cons e es ih => simp [runSteps, step_of_terminated s e h, ih]

theorem forwardedOf_append (a b : List Act) :
    forwardedOf (a ++ b) = forwardedOf a ++ forwardedOf b := by
  simp [forwardedOf]

theorem step_vad_tick (s : SupState) (now : Nat) (h : ¬s.terminated = true) :
    (step s (.tick now)).1.vad = s.vad := by
  simp only [step, h]
  repeat' split
  all_goals rfl

theorem step_fwd_tick (s : SupState) (now : Nat) (h : ¬s.terminated = true) :
    forwardedOf (step s (.tick now)).2 = [] := by
  simp only [step, h]
  repeat' split
  all_goals rfl

theorem step_vad_frame (s : SupState) (now : Nat) (data : List Nat)
    (sendOk connectOk : Bool) (h : ¬s.terminated = true) :
    (step s (.frame now data sendOk connectOk)).1.vad
      = (DetectActivity s.vad data).1 := by
  simp only [step, supTeardown, h]
  repeat' split
  all_goals first | rfl | simp_all

theorem step_fwd_frame (s : SupState) (now : Nat) (data : List Nat)
    (sendOk connectOk : Bool) (h : ¬s.terminated = true) :
    forwardedOf (step s (.frame now data sendOk connectOk)).2 = [] ∨
    (forwardedOf (step s (.frame now data sendOk connectOk)).2 = [data] ∧
      (DetectActivity s.vad data).2 = .ok true) := by
  simp only [step, supTeardown, h]
  rcases hD : (DetectActivity s.vad data).2 with err | b
  · left; simp [forwardedOf]
  · cases b
    all_goals repeat' split
    all_goals simp_all [forwardedOf]

theorem vadTrue_cons_step (v : VAD) (d : List Nat) (ds : List (List Nat)) :
    (vadTrue (DetectActivity v d).1 ds).Sublist (vadTrue v (d :: ds)) ∧
    ((DetectActivity v d).2 = .ok true →
      vadTrue v (d :: ds) = d :: vadTrue (DetectActivity v d).1 ds) := by
  constructor
  · show (vadTrue (DetectActivity v d).1 ds).Sublist
      (match (DetectActivity v d).2 with
        | .ok true => d :: vadTrue (DetectActivity v d).1 ds
        | _ => vadTrue (DetectActivity v d).1 ds)
    rcases (DetectActivity v d).2 with err | b
    · exact List.Sublist.refl _
    · cases b
      · exact List.Sublist.refl _
      · exact List.sublist_cons_self _ _
  · intro hok
    show (match (DetectActivity v d).2 with
        | .ok true => d :: vadTrue (DetectActivity v d).1 ds
        | _ => vadTrue (DetectActivity v d).1 ds)
      = d :: vadTrue (DetectActivity v d).1 ds
    rw [hok]

/-- C8: over any event sequence, the frames the audio loop hands to the
ASR client's `SendAudio` form a subsequence, in arrival order, of the
frames for which the VAD returned true (threading the VAD state frame
by frame); frames for which the VAD returned false or errored are never
forwarded. -/
theorem c8_forwarded_frames_sublist_of_voiced (s : SupState) (es : List Ev) :
    (forwardedOf (runSteps s es).2).Sublist (vadTrue s.vad (framesOf es)) := by
  induction es generalizing s with
  | nil => exact List.Sublist.refl _
  | cons e es ih =>
    have hrun : runSteps s (e :: es) =
        ((runSteps (step s e).1 es).1, (step s e).2 ++ (runSteps (step s e).1 es).2) := rfl
    by_cases ht : s.terminated
    · rw [runSteps_of_terminated _ _ ht]
      exact List.nil_sublist _
    · rw [hrun]
      simp only [forwardedOf_append]
      cases e with
      | tick now =>
        have hrest := ih (step s (.tick now)).1
        rw [step_vad_tick s now ht] at hrest
        rw [step_fwd_tick s now ht, List.nil_append]
        exact hrest
      | ctxDone =>
        have h1 : step s .ctxDone = ({ s with terminated := true }, [Act.closeSTT, Act.terminate]) := by
          simp [step, supTeardown, ht]
        rw [h1]
        simp [forwardedOf, framesOf,
          runSteps_of_terminated ({ s with terminated := true }) es rfl]
      | readErr b =>
        have h1 : step s (.readErr b) = ({ s with terminated := true }, [Act.closeSTT, Act.terminate]) := by
          simp [step, supTeardown, ht]
        rw [h1]
        simp [forwardedOf, framesOf,
          runSteps_of_terminated ({ s with terminated := true }) es rfl]
      | frame now data sendOk connectOk =>
        have hrest := ih (step s (.frame now data sendOk connectOk)).1
        rw [step_vad_frame s now data sendOk connectOk ht] at hrest
        have hfr : framesOf (Ev.frame now data sendOk connectOk :: es)
            = data :: framesOf es := rfl
        rw [hfr]
        rcases step_fwd_frame s now data sendOk connectOk ht with hf | ⟨hf, hok⟩
        · rw [hf, List.nil_append]
          exact hrest.trans (vadTrue_cons_step s.vad data (framesOf es)).1
        · rw [hf, (vadTrue_cons_step s.vad data (framesOf es)).2 hok]
          exact hrest.cons₂ data

end CallService
